import Mathlib

/-!
Verification of the Natlink engine back-end of the `dragonfly` repository
(src/dragonfly/engines/backend_natlink/engine.py), as a shallow embedding.

Conventions of the embedding:
  * The native natlink `GramObj` / engine calls are pure effects recorded in
    a trace (`NCall` values).  Whether a native call raises `NatError` is
    decided by an oracle (`NativeEnv`), so theorems quantify over every
    possible behaviour of the closed-source engine.
  * Python's `set` of rule names is modelled as a duplicate-free
    `List String` with `setAdd` / `List.erase`; a Python exception
    propagating out of a method is an explicit error value, returned next
    to the state that the method had already mutated before raising.
-/

namespace Dragonfly

/-- Native (natlink) calls performed by the adapter, recorded in traces.
Every attempt is recorded, whether or not the native engine raises. -/
inductive NCall where
  | setBeginCallback (registered : Bool)
  | setResultsCallback (registered : Bool)
  | setHypothesisCallback (registered : Bool)
  | load
  | natConnect
  | natDisconnect
  | activate (rule : String) (hwnd : Nat)
  | deactivate (rule : String)
  | emptyList (name : String)
  | appendList (name : String) (word : String)
deriving DecidableEq, Repr

/-- Python exceptions that escape the embedded methods. -/
inductive PyErr where
  | keyError
  | natError
deriving DecidableEq, Repr

/-- Oracle describing which native calls raise `NatError`:
`activateFails r h` is whether `GramObj.activate(r, h)` raises on a first
attempt, `reactivateFails r h` whether the recovery re-activation raises,
`deactivateFails r` whether `GramObj.deactivate(r)` raises. -/
structure NativeEnv where
  activateFails : String → Nat → Bool
  reactivateFails : String → Nat → Bool
  deactivateFails : String → Bool

/-- State of `GrammarWrapper` (engine.py, class `GrammarWrapper`):
compiled rule names, the active-rule set, the current window handle and
the transient `beginning` flag. -/
structure GrammarWrapper where
  ruleNames : List String
  activeRulesSet : List String
  hwnd : Nat
  beginning : Bool
deriving DecidableEq, Repr

/-- Python `set.add`: appends the element unless already present. -/
def setAdd (s : List String) (x : String) : List String :=
  if x ∈ s then s else s ++ [x]

/-- `GrammarWrapper.activate_rule` (engine.py lines 444-456): add the name
to `active_rules_set`; return immediately when `beginning` is set;
otherwise call `GramObj.activate`, recovering from a `NatError` by
deactivating and re-activating.  Returns the mutated wrapper, the trace of
native calls and the exception that propagates, if any. -/
def GrammarWrapper.activate_rule (env : NativeEnv) (w : GrammarWrapper)
    (ruleName : String) : GrammarWrapper × List NCall × Option PyErr :=
  let w1 : GrammarWrapper :=
    { w with activeRulesSet := setAdd w.activeRulesSet ruleName }
  if w1.beginning then (w1, [], none)
  else if env.activateFails ruleName w1.hwnd then
    if env.deactivateFails ruleName then
      (w1, [.activate ruleName w1.hwnd, .deactivate ruleName], some .natError)
    else if env.reactivateFails ruleName w1.hwnd then
      (w1, [.activate ruleName w1.hwnd, .deactivate ruleName,
            .activate ruleName w1.hwnd], some .natError)
    else
      (w1, [.activate ruleName w1.hwnd, .deactivate ruleName,
            .activate ruleName w1.hwnd], none)
  else
    (w1, [.activate ruleName w1.hwnd], none)

/-- `GrammarWrapper.deactivate_rule` (engine.py lines 458-461):
`set.remove` raises `KeyError` when the name is absent (nothing else
happens then); otherwise the name is removed and `GramObj.deactivate` is
called, unguarded. -/
def GrammarWrapper.deactivate_rule (env : NativeEnv) (w : GrammarWrapper)
    (ruleName : String) : GrammarWrapper × List NCall × Option PyErr :=
  if ruleName ∈ w.activeRulesSet then
    let w1 : GrammarWrapper :=
      { w with activeRulesSet := w.activeRulesSet.erase ruleName }
    if env.deactivateFails ruleName then
      (w1, [.deactivate ruleName], some .natError)
    else
      (w1, [.deactivate ruleName], none)
  else
    (w, [], some .keyError)

/-- The `for rule_name in self.active_rules_set: self.activate_rule(...)`
loop at the end of `begin_callback`; a Python exception raised by an
iteration aborts the loop and propagates. -/
def activateLoop (env : NativeEnv) (w : GrammarWrapper) :
    List String → GrammarWrapper × List NCall × Option PyErr
  | [] => (w, [], none)
  | r :: rest =>
    match w.activate_rule env r with
    | (w1, t, none) =>
      let (w2, t2, e) := activateLoop env w1 rest
      (w2, t ++ t2, e)
    | (w1, t, some e) => (w1, t, some e)

/-- `GrammarWrapper.begin_callback` (engine.py lines 426-442): set the
`beginning` flag and the new window handle, run the grammar's
`process_begin` handler (exceptions caught and logged; its effect on the
wrapper — context-driven activate/deactivate requests — is the parameter
`pb`), clear the flag, then (re-)activate every rule in the active set. -/
def GrammarWrapper.begin_callback (env : NativeEnv)
    (pb : GrammarWrapper → GrammarWrapper) (w : GrammarWrapper)
    (handle : Nat) : GrammarWrapper × List NCall × Option PyErr :=
  let w1 := pb { w with beginning := true, hwnd := handle }
  let w2 : GrammarWrapper := { w1 with beginning := false }
  activateLoop env w2 w2.activeRulesSet

/-- Dragonfly exceptions surfaced to the caller of the adapter. -/
inductive EngineError where
  | loadError (grammarName : String) (message : String)
deriving DecidableEq, Repr

/-- The exact natlink message that triggers the connect-and-retry path in
`_load_grammar`. -/
def notConnectedMsg : String :=
  "Calling GramObj.load is not allowed before calling natConnect"

/-- Environment for `_load_grammar`: the compiler's output for the grammar
(`compile` mirrors `NatlinkCompiler.compile_grammar`, returning the
compiled artifact and the rule-name mapping) and the native `GramObj.load`
behaviour (`loadFails k` is the error message of the `k`-th load attempt,
`none` meaning success). -/
structure LoadEnv where
  compile : String → String × List String
  loadFails : Nat → Option String

/-- `NatlinkEngine._load_grammar` (engine.py lines 202-253): build a
`GramObj` and wrapper, register callbacks, compile the grammar; return the
wrapper early when there are no rule names; otherwise load, and on the
specific "not allowed before calling natConnect" `NatError` connect and
retry once; any other failure (and a retry failure) raises `EngineError`
naming the grammar and the native message.  Returns the native-call trace
and either the wrapper or the escaping `EngineError`. -/
def load_grammar (env : LoadEnv) (grammarName : String) :
    List NCall × Except EngineError GrammarWrapper :=
  let ruleNames := (env.compile grammarName).2
  let w : GrammarWrapper :=
    { ruleNames := ruleNames, activeRulesSet := [], hwnd := 0,
      beginning := false }
  let pre : List NCall :=
    [.setBeginCallback true, .setResultsCallback true,
     .setHypothesisCallback false]
  if ruleNames.isEmpty then (pre, .ok w)
  else
    match env.loadFails 0 with
    | none => (pre ++ [.load], .ok w)
    | some msg =>
      if msg = notConnectedMsg then
        match env.loadFails 1 with
        | none => (pre ++ [.load, .natConnect, .load], .ok w)
        | some msg2 =>
          (pre ++ [.load, .natConnect, .load],
           .error (.loadError grammarName msg2))
      else
        (pre ++ [.load], .error (.loadError grammarName msg))

/-- Characters Python's argument-less `str.split` splits on. -/
def isPyWs (c : Char) : Bool :=
  c = ' ' || c = '\t' || c = '\n' || c = '\x0d' || c = '\x0b' || c = '\x0c'

/-- Helper for `pySplit`: scan the characters, accumulating the current
word (in reverse) and emitting it at each whitespace boundary. -/
def splitWsAux : List Char → List Char → List String
  | [], acc => if acc.isEmpty then [] else [String.mk acc.reverse]
  | c :: cs, acc =>
    if isPyWs c then
      if acc.isEmpty then splitWsAux cs []
      else String.mk acc.reverse :: splitWsAux cs []
    else splitWsAux cs (c :: acc)

/-- Python `str.split()` with no arguments: split on runs of whitespace,
producing no empty tokens. -/
def pySplit (s : String) : List String := splitWsAux s.data []

/-- The argument of `NatlinkEngine.mimic`: a single string or a sequence
of word tokens. -/
inductive MimicInput where
  | str (s : String)
  | words (ws : List String)
deriving DecidableEq, Repr

/-- `MimicFailure` exceptions, keeping the information the two
`raise MimicFailure(...)` sites format into their messages. -/
inductive MimicFailure where
  | invalidInput
  | noMatchingRule (preparedWords : List String)
deriving DecidableEq, Repr

/-- Native behaviour for mimic: whether `natlink.recognitionMimic` raises
`MimicFailed` on a given word sequence. -/
structure MimicEnv where
  mimicFails : List String → Bool

/-- `NatlinkEngine.mimic` (engine.py lines 313-350): a string argument is
split on whitespace; the words are copied into `prepared_words` (the
Python 3 branch copies them unchanged); an empty preparation raises
`MimicFailure` ("Invalid mimic input"); otherwise
`natlink.recognitionMimic` is called, whose `MimicFailed` becomes
`MimicFailure` ("No matching rule").  Returns the sequences passed to the
native engine and the outcome. -/
def mimic (env : MimicEnv) (input : MimicInput) :
    List (List String) × Except MimicFailure Unit :=
  let ws := match input with
    | .str s => pySplit s
    | .words l => l
  let preparedWords := ws
  if preparedWords.length = 0 then ([], .error .invalidInput)
  else if env.mimicFails preparedWords then
    ([preparedWords], .error (.noMatchingRule preparedWords))
  else
    ([preparedWords], .ok ())

/-- `NatlinkEngine.update_list` (engine.py lines 294-305), acting on the
native lists of one grammar object, modelled as a map from list name to
contents: `emptyList(n)` then `appendList(n, word)` for each item of the
dragonfly list, in order. -/
def update_list (native : String → List String) (n : String)
    (items : List String) : (String → List String) × List NCall :=
  let cleared : String → List String := fun m => if m = n then [] else native m
  let filled := items.foldl
    (fun st word => fun m => if m = n then st m ++ [word] else st m) cleared
  (filled, .emptyList n :: items.map (fun word => .appendList n word))

/-- State of `NatlinkEngine` relevant to `disconnect`: names of loaded
grammars, whether the keep-alive timer thread is running, whether the
`waitForSpeech` dialog window is visible and owned by this process, and
whether natlink is connected. -/
structure EngineState where
  grammars : List String
  timerThread : Bool
  windowOpen : Bool
  connected : Bool
deriving DecidableEq, Repr

/-- Events of the `disconnect` sequence, in the order performed. -/
inductive DiscEvent where
  | unload (grammarName : String)
  | closeWindow
  | stopTimer
  | natDisconnect
deriving DecidableEq, Repr

/-- `NatlinkEngine.disconnect` (engine.py lines 172-197): unload every
grammar (failures are logged, not raised), close the engine-owned dialog
window if visible and owned by this process (`pywintypes.error` caught),
stop the timer thread if running, then `natlink.natDisconnect()` (safe
also when never connected). -/
def disconnect (st : EngineState) : EngineState × List DiscEvent :=
  let unloads := st.grammars.map DiscEvent.unload
  let closeEvs : List DiscEvent := if st.windowOpen then [.closeWindow] else []
  let stopEvs : List DiscEvent := if st.timerThread then [.stopTimer] else []
  ({ grammars := [], timerThread := false, windowOpen := false,
     connected := false },
   unloads ++ closeEvs ++ stopEvs ++ [.natDisconnect])

/-- Environment for `_retain_audio`: the configured retain directory
(`none` models Python `None`), which paths are existing directories, the
result of `results.getWave()` (which may raise), and whether the wav / tsv
file writes raise. -/
structure RetainEnv where
  retainDir : Option String
  isDir : String → Bool
  getWave : Except String (List Nat)
  writeWavFails : Bool
  writeTsvFails : Bool

/-- Python truthiness of the retain-directory value: `None` and the empty
string are falsy. -/
def truthy : Option String → Bool
  | none => false
  | some s => !s.isEmpty

/-- File writes performed by `_retain_audio`. -/
inductive FileWrite where
  | wav (audio : List Nat)
  | tsvAppend (grammarName : String) (ruleName : String) (text : String)
deriving DecidableEq, Repr

/-- The body of the `try:` block of `_retain_audio` (engine.py lines
512-532): get the wave data; if non-empty, write the `.wav` file and
append the metadata row to `retain.tsv`.  Returns the writes performed
before any exception, and the exception if one was raised. -/
def retainBody (env : RetainEnv) (words : List String)
    (grammarName ruleName : String) : List FileWrite × Option String :=
  match env.getWave with
  | .error e => ([], some e)
  | .ok audio =>
    if audio.length > 0 then
      if env.writeWavFails then ([], some "wav write failed")
      else if env.writeTsvFails then
        ([.wav audio], some "tsv write failed")
      else
        ([.wav audio,
          .tsvAppend grammarName ruleName (" ".intercalate words)], none)
    else ([], none)

/-- Outcome of `_retain_audio`: skipped (falsy directory), warned (set
directory does not exist), completed with the listed writes, or an
exception caught by the bare `except:` and logged, with the writes that
had already happened. -/
inductive RetainOutcome where
  | skipped
  | warnedNotDir
  | completed (writes : List FileWrite)
  | loggedException (msg : String) (writes : List FileWrite)
deriving DecidableEq, Repr

/-- `GrammarWrapper._retain_audio` (engine.py lines 503-534): warn and do
nothing when the configured directory is not a directory; when it is, run
the body with every exception caught and logged.  The `Except` codomain
makes the absence of escaping exceptions a statement rather than a typing
accident. -/
def retain_audio (env : RetainEnv) (words : List String)
    (grammarName ruleName : String) : Except String RetainOutcome :=
  if truthy env.retainDir && !env.isDir (env.retainDir.getD "") then
    .ok .warnedNotDir
  else if truthy env.retainDir then
    match retainBody env words grammarName ruleName with
    | (writes, none) => .ok (.completed writes)
    | (writes, some e) => .ok (.loggedException e writes)
  else .ok .skipped

/-- `GrammarWrapper._process_final_rule` (engine.py lines 491-498): call
`_retain_audio`, then the base-class method; the `Bool` records that the
base-class dispatch was reached. -/
def process_final_rule (env : RetainEnv) (words : List String)
    (grammarName ruleName : String) :
    Except String (RetainOutcome × Bool) :=
  match retain_audio env words grammarName ruleName with
  | .error e => .error e
  | .ok out => .ok (out, true)

/-! ## Helper lemmas -/

theorem mem_setAdd_self (s : List String) (x : String) : x ∈ setAdd s x := by
  by_cases h : x ∈ s <;> simp [setAdd, h]

theorem setAdd_of_mem {s : List String} {x : String} (h : x ∈ s) :
    setAdd s x = s := by
  simp [setAdd, h]

-- The first component returned by `activate_rule` is the same in every
-- branch: the wrapper with the name added to the active set.
theorem activate_rule_state (env : NativeEnv) (w : GrammarWrapper)
    (name : String) :
    (w.activate_rule env name).1 =
      { w with activeRulesSet := setAdd w.activeRulesSet name } := by
  unfold GrammarWrapper.activate_rule
  cases hb : w.beginning <;>
    cases hA : env.activateFails name w.hwnd <;>
      cases hd : env.deactivateFails name <;>
        cases hr : env.reactivateFails name w.hwnd <;>
          simp [hb, hA, hd, hr]

-- Outside the begin phase, with a non-raising native engine,
-- re-activating an already-recorded rule emits exactly one native
-- activation and leaves the wrapper unchanged.
theorem activate_rule_mem_ok (env : NativeEnv) (w : GrammarWrapper)
    (r : String) (hb : w.beginning = false)
    (hA : env.activateFails r w.hwnd = false) (hm : r ∈ w.activeRulesSet) :
    w.activate_rule env r = (w, [.activate r w.hwnd], none) := by
  obtain ⟨rn, ars, hw, beg⟩ := w
  dsimp only at hb hA hm ⊢
  subst hb
  unfold GrammarWrapper.activate_rule
  simp [setAdd_of_mem hm, hA]

-- Replaying a list of already-recorded rules activates each exactly in
-- sequence, for the wrapper's current window handle.
theorem activateLoop_replay (env : NativeEnv) (w : GrammarWrapper)
    (hb : w.beginning = false) (hA : ∀ r h, env.activateFails r h = false) :
    ∀ names, (∀ r ∈ names, r ∈ w.activeRulesSet) →
      activateLoop env w names =
        (w, names.map (fun r => NCall.activate r w.hwnd), none) := by
  intro names
  induction names with
  | nil => intro _; rfl
  | cons r rest ih =>
    intro hmem
    have h1 : w.activate_rule env r = (w, [.activate r w.hwnd], none) :=
      activate_rule_mem_ok env w r hb (hA r w.hwnd) (hmem r (by simp))
    simp [activateLoop, h1, ih (fun x hx => hmem x (by simp [hx]))]

/-! ## Claim theorems -/

/-- C1: a call to `activate_rule` made while the `beginning` flag is set
only records the name in the active set and performs no native call; once
`begin_callback` has run the grammar's handler (`pb`) and cleared the
flag, every rule name then in the active set is natively activated exactly
once for the new window handle, and every native activation in that trace
is for a name in the set and for that handle.  Stated for native engines
whose `activate` does not raise and handlers that keep the active set
duplicate-free and the handle untouched, as `process_begin` does. -/
theorem C1_activation_deferred_and_replayed (env : NativeEnv)
    (hA : ∀ r h, env.activateFails r h = false)
    (pb : GrammarWrapper → GrammarWrapper)
    (hpb : ∀ v, (pb v).hwnd = v.hwnd)
    (w : GrammarWrapper) (handle : Nat)
    (hnodup :
      (pb { w with beginning := true, hwnd := handle }).activeRulesSet.Nodup) :
    (∀ v : GrammarWrapper, ∀ name, v.beginning = true →
       v.activate_rule env name =
         ({ v with activeRulesSet := setAdd v.activeRulesSet name }, [], none))
    ∧ (∀ name,
        name ∈ (pb { w with beginning := true, hwnd := handle }).activeRulesSet →
        ((w.begin_callback env pb handle).2.1).count
            (.activate name handle) = 1)
    ∧ (∀ name h,
        NCall.activate name h ∈ (w.begin_callback env pb handle).2.1 →
        name ∈ (pb { w with beginning := true, hwnd := handle }).activeRulesSet
          ∧ h = handle) := by
  set w1 := pb { w with beginning := true, hwnd := handle } with hw1
  have hloop :
      w.begin_callback env pb handle =
        ({ w1 with beginning := false },
         w1.activeRulesSet.map (fun r => NCall.activate r w1.hwnd), none) := by
    unfold GrammarWrapper.begin_callback
    exact activateLoop_replay env { w1 with beginning := false } rfl hA
      w1.activeRulesSet (fun r hr => hr)
  have hh : w1.hwnd = handle := by rw [hw1, hpb]
  refine ⟨?_, ?_, ?_⟩
  · intro v name hbeg
    unfold GrammarWrapper.activate_rule
    simp [hbeg]
  · intro name hmem
    rw [hloop]
    simp only [hh]
    have hinj : Function.Injective (fun r => NCall.activate r handle) := by
      intro a b hab
      simpa using hab
    have : (w1.activeRulesSet.map (fun r => NCall.activate r handle)).Nodup :=
      hnodup.map hinj
    exact List.count_eq_one_of_mem this (List.mem_map_of_mem _ hmem)
  · intro name h hmem
    rw [hloop] at hmem
    simp only [List.mem_map] at hmem
    obtain ⟨r, hr, heq⟩ := hmem
    have h1 : r = name := by
      have := congrArg (fun c => match c with | NCall.activate a _ => a | _ => "") heq
      simpa using this
    have h2 : w1.hwnd = h := by
      have := congrArg (fun c => match c with | NCall.activate _ b => b | _ => 0) heq
      simpa using this
    exact ⟨h1 ▸ hr, by rw [← h2, hh]⟩

/-- A native engine that never raises, for concrete witnesses. -/
def envOk : NativeEnv := ⟨fun _ _ => false, fun _ _ => false, fun _ => false⟩

/-- A native engine on which every activation and deactivation raises, for
witnesses about the exception paths. -/
def envBad : NativeEnv := ⟨fun _ _ => true, fun _ _ => true, fun _ => true⟩

/-- A concrete wrapper with two active rules, outside the begin phase. -/
def w0 : GrammarWrapper :=
  { ruleNames := ["hello"], activeRulesSet := ["hello", "world"], hwnd := 7,
    beginning := false }

/-- Witness for C1: the non-raising engine `envOk`, the identity
`process_begin` effect, wrapper `w0` and window handle 42. -/
theorem C1_witness :
    (∀ v : GrammarWrapper, ∀ name, v.beginning = true →
       v.activate_rule envOk name =
         ({ v with activeRulesSet := setAdd v.activeRulesSet name }, [], none))
    ∧ (∀ name,
        name ∈ (id { w0 with beginning := true, hwnd := 42 } :
          GrammarWrapper).activeRulesSet →
        ((w0.begin_callback envOk id 42).2.1).count
            (.activate name 42) = 1)
    ∧ (∀ name h,
        NCall.activate name h ∈ (w0.begin_callback envOk id 42).2.1 →
        name ∈ (id { w0 with beginning := true, hwnd := 42 } :
          GrammarWrapper).activeRulesSet ∧ h = 42) :=
  C1_activation_deferred_and_replayed envOk (fun _ _ => rfl) id (fun _ => rfl)
    w0 42 (by decide)

/-- C9: `activate_rule` adds the rule name to the active set before any
native call, so the name is in the set after any call — for every native
behaviour, including those where the activation and its
deactivate-then-reactivate recovery raise — and a repeated call with an
already-recorded name leaves the set unchanged. -/
theorem C9_active_set_grows_first (env : NativeEnv) (w : GrammarWrapper)
    (name : String) :
    name ∈ (w.activate_rule env name).1.activeRulesSet
    ∧ (name ∈ w.activeRulesSet →
        (w.activate_rule env name).1.activeRulesSet = w.activeRulesSet) := by
  have hst := activate_rule_state env w name
  rw [hst]
  exact ⟨mem_setAdd_self w.activeRulesSet name, fun h => setAdd_of_mem h⟩

/-- Witness for C9 on the all-raising engine `envBad`: the name stays in
the set even though the recovery path raised `NatError`. -/
theorem C9_witness :
    "hello" ∈ w0.activeRulesSet
    ∧ "hello" ∈ (w0.activate_rule envBad "hello").1.activeRulesSet
    ∧ (w0.activate_rule envBad "hello").1.activeRulesSet = w0.activeRulesSet
    ∧ (w0.activate_rule envBad "hello").2.2 = some PyErr.natError :=
  ⟨by decide,
   (C9_active_set_grows_first envBad w0 "hello").1,
   (C9_active_set_grows_first envBad w0 "hello").2 (by decide),
   by decide⟩

/-- C8: `deactivate_rule` removes the name from the active set and then
deactivates it natively; when the name is not in the active set the call
raises `KeyError`, performs no native call and leaves the wrapper
unchanged. -/
theorem C8_deactivate_requires_active (env : NativeEnv) (w : GrammarWrapper)
    (name : String) :
    (name ∈ w.activeRulesSet →
       (w.deactivate_rule env name).1.activeRulesSet
           = w.activeRulesSet.erase name
       ∧ (w.deactivate_rule env name).2.1 = [.deactivate name])
    ∧ (name ∉ w.activeRulesSet →
       w.deactivate_rule env name = (w, [], some .keyError)) := by
  unfold GrammarWrapper.deactivate_rule
  by_cases h : name ∈ w.activeRulesSet
  · cases hd : env.deactivateFails name <;> simp [h, hd]
  · simp [h]

/-- Witness for C8: removing the active "hello" erases it from the set and
deactivates it natively; removing the absent "nope" raises `KeyError` and
changes nothing. -/
theorem C8_witness :
    ("hello" ∈ w0.activeRulesSet
      ∧ (w0.deactivate_rule envOk "hello").1.activeRulesSet
          = w0.activeRulesSet.erase "hello")
    ∧ ("nope" ∉ w0.activeRulesSet
      ∧ w0.deactivate_rule envOk "nope" = (w0, [], some .keyError)) :=
  ⟨⟨by decide,
    ((C8_deactivate_requires_active envOk w0 "hello").1 (by decide)).1⟩,
   ⟨by decide,
    (C8_deactivate_requires_active envOk w0 "nope").2 (by decide)⟩⟩

/-- C2: when compilation yields an empty rule-name mapping, `_load_grammar`
returns the wrapper without ever calling the native `GramObj.load`. -/
theorem C2_empty_grammar_no_load (env : LoadEnv) (g : String)
    (h : (env.compile g).2 = []) :
    (load_grammar env g).2 =
      .ok { ruleNames := [], activeRulesSet := [], hwnd := 0,
            beginning := false }
    ∧ NCall.load ∉ (load_grammar env g).1 := by
  unfold load_grammar
  simp [h]

/-- A load environment whose compiler produces zero rules. -/
def envLoadEmpty : LoadEnv := ⟨fun _ => ("", []), fun _ => none⟩

/-- Witness for C2 on a grammar compiling to zero rules. -/
theorem C2_witness :
    (envLoadEmpty.compile "g").2 = []
    ∧ (load_grammar envLoadEmpty "g").2 =
        .ok { ruleNames := [], activeRulesSet := [], hwnd := 0,
              beginning := false }
    ∧ NCall.load ∉ (load_grammar envLoadEmpty "g").1 :=
  ⟨rfl, (C2_empty_grammar_no_load envLoadEmpty "g" rfl).1,
   (C2_empty_grammar_no_load envLoadEmpty "g" rfl).2⟩

/-- C3: when the first native load fails with the specific "not allowed
before calling natConnect" message, `_load_grammar` connects and retries
the load exactly once (the trace holds exactly two load attempts with
`natConnect` between them); a failing retry raises `EngineError` naming
the grammar and the retry's message; any other first failure raises
`EngineError` naming the grammar and that message, with no connect and no
retry. -/
theorem C3_connect_retry_once (env : LoadEnv) (g : String)
    (hr : (env.compile g).2 ≠ []) :
    (env.loadFails 0 = some notConnectedMsg →
      (load_grammar env g).1 =
        [.setBeginCallback true, .setResultsCallback true,
         .setHypothesisCallback false, .load, .natConnect, .load]
      ∧ (env.loadFails 1 = none →
          (load_grammar env g).2 =
            .ok { ruleNames := (env.compile g).2, activeRulesSet := [],
                  hwnd := 0, beginning := false })
      ∧ (∀ msg2, env.loadFails 1 = some msg2 →
          (load_grammar env g).2 = .error (.loadError g msg2)))
    ∧ (∀ msg, env.loadFails 0 = some msg → msg ≠ notConnectedMsg →
        (load_grammar env g).1 =
          [.setBeginCallback true, .setResultsCallback true,
           .setHypothesisCallback false, .load]
        ∧ (load_grammar env g).2 = .error (.loadError g msg)) := by
  have hne : ((env.compile g).2).isEmpty = false := by
    cases h : (env.compile g).2 with
    | nil => exact absurd h hr
    | cons a l => rfl
  refine ⟨fun h0 => ?_, fun msg h0 hmsg => ?_⟩
  · cases h1 : env.loadFails 1 with
    | none => simp [load_grammar, hne, h0, h1]
    | some m2 => simp [load_grammar, hne, h0, h1]
  · simp [load_grammar, hne, h0, hmsg]

/-- A load environment that raises the not-connected error first and a
different native error on the retry. -/
def envLoadRetry : LoadEnv :=
  ⟨fun _ => ("c", ["r"]), fun k => if k = 0 then some notConnectedMsg
                                   else some "boom"⟩

/-- Witness for C3: the retry happens exactly once and its failure is
surfaced as an `EngineError` naming the grammar and the message. -/
theorem C3_witness :
    envLoadRetry.loadFails 0 = some notConnectedMsg
    ∧ (load_grammar envLoadRetry "g").1 =
        [.setBeginCallback true, .setResultsCallback true,
         .setHypothesisCallback false, .load, .natConnect, .load]
    ∧ (load_grammar envLoadRetry "g").2 = .error (.loadError "g" "boom") :=
  ⟨rfl,
   ((C3_connect_retry_once envLoadRetry "g" (by decide)).1 rfl).1,
   (((C3_connect_retry_once envLoadRetry "g" (by decide)).1 rfl).2).2
     "boom" rfl⟩

-- A string all of whose characters are Python whitespace splits to no
-- tokens.
theorem splitWsAux_ws (l : List Char) (h : ∀ c ∈ l, isPyWs c = true) :
    splitWsAux l [] = [] := by
  induction l with
  | nil => rfl
  | cons c cs ih =>
    simp only [splitWsAux, h c (List.mem_cons_self c cs), if_true,
      List.isEmpty_nil]
    exact ih (fun x hx => h x (List.mem_cons_of_mem c hx))

/-- C4: `mimic` raises `MimicFailure` on the empty string, the empty
sequence and whitespace-only strings (inputs that yield zero words), and
when the native engine reports no matching rule; a non-empty string is
split on whitespace into word tokens, and exactly that token list is what
reaches the native engine. -/
theorem C4_mimic_failures (env : MimicEnv) :
    mimic env (.str "") = ([], .error .invalidInput)
    ∧ mimic env (.words []) = ([], .error .invalidInput)
    ∧ (∀ s : String, (∀ c ∈ s.data, isPyWs c = true) →
        mimic env (.str s) = ([], .error .invalidInput))
    ∧ (∀ ws : List String, ws ≠ [] → env.mimicFails ws = true →
        mimic env (.words ws) = ([ws], .error (.noMatchingRule ws)))
    ∧ (∀ s : String, pySplit s ≠ [] →
        (mimic env (.str s)).1 = [pySplit s]) := by
  refine ⟨rfl, rfl, ?_, ?_, ?_⟩
  · intro s hs
    have h : pySplit s = [] := splitWsAux_ws s.data hs
    simp [mimic, h]
  · intro ws hne hf
    have hl : ws.length ≠ 0 := by simpa [List.length_eq_zero] using hne
    simp [mimic, hl, hf]
  · intro s hne
    have hl : (pySplit s).length ≠ 0 := by
      simpa [List.length_eq_zero] using hne
    cases hf : env.mimicFails (pySplit s) <;> simp [mimic, hl, hf]

/-- A native engine for mimic that matches no rule for the words
`["bad"]` and matches everything else. -/
def envMimic : MimicEnv := ⟨fun ws => ws == ["bad"]⟩

/-- Witness for C4: empty, whitespace-only and unmatched inputs fail; a
two-word string reaches the engine as its two tokens. -/
theorem C4_witness :
    mimic envMimic (.str "") = ([], .error .invalidInput)
    ∧ mimic envMimic (.words []) = ([], .error .invalidInput)
    ∧ mimic envMimic (.str " \t ") = ([], .error .invalidInput)
    ∧ mimic envMimic (.words ["bad"]) =
        ([["bad"]], .error (.noMatchingRule ["bad"]))
    ∧ (mimic envMimic (.str "hello world")).1 = [["hello", "world"]] :=
  ⟨(C4_mimic_failures envMimic).1,
   (C4_mimic_failures envMimic).2.1,
   (C4_mimic_failures envMimic).2.2.1 " \t " (by decide),
   (C4_mimic_failures envMimic).2.2.2.1 ["bad"] (by decide) (by decide),
   by rw [(C4_mimic_failures envMimic).2.2.2.2 "hello world" (by decide)]
      decide⟩

-- Folding the `appendList` steps over the cleared native list rebuilds
-- exactly the pushed items, in order.
theorem update_list_foldl (n : String) (items : List String)
    (st : String → List String) :
    (items.foldl
      (fun st word => fun m => if m = n then st m ++ [word] else st m) st) n
      = st n ++ items := by
  induction items generalizing st with
  | nil => simp
  | cons w ws ih =>
    rw [List.foldl_cons, ih]
    simp

/-- C5: `update_list` first empties the named native list and then appends
each item of the dragonfly list in order, so afterwards the native list
holds exactly those items, whatever it held before. -/
theorem C5_update_list_replaces (native : String → List String) (n : String)
    (items : List String) :
    (update_list native n items).1 n = items
    ∧ (update_list native n items).2 =
        .emptyList n :: items.map (fun word => .appendList n word) := by
  unfold update_list
  dsimp only
  refine ⟨?_, rfl⟩
  rw [update_list_foldl]
  simp

/-- C7: `disconnect` unloads every grammar, closes the engine-owned dialog
window when open and owned by this process, stops the keep-alive timer
thread when running, then releases the native connection, in that order —
for every engine state, so in particular for a never-connected state and
(second conjunct) for an immediately repeated call, both of which complete
normally with the native release last. -/
theorem C7_disconnect_safe (st : EngineState) :
    disconnect st =
      ({ grammars := [], timerThread := false, windowOpen := false,
         connected := false },
       st.grammars.map DiscEvent.unload
         ++ (if st.windowOpen then [.closeWindow] else [])
         ++ (if st.timerThread then [.stopTimer] else [])
         ++ [.natDisconnect])
    ∧ (disconnect (disconnect st).1).2 = [.natDisconnect] :=
  ⟨rfl, rfl⟩

-- `_retain_audio` yields a normal outcome for every environment: the bare
-- `except:` turns every exception of the body into a logged outcome.
theorem retain_audio_total (env : RetainEnv) (words : List String)
    (g r : String) : ∃ out, retain_audio env words g r = .ok out := by
  unfold retain_audio
  split
  · exact ⟨_, rfl⟩
  split
  · rcases retainBody env words g r with ⟨ws, _ | e⟩
    · exact ⟨_, rfl⟩
    · exact ⟨_, rfl⟩
  · exact ⟨_, rfl⟩

/-- C6: a retention problem never raises out of the result path: with a
configured but non-existent retain directory, `_retain_audio` only logs a
warning and writes nothing, and for every environment — including ones
where wave capture or the file writes raise — `_process_final_rule`
completes and still reaches the base-class recognition dispatch. -/
theorem C6_retention_never_raises (env : RetainEnv) (words : List String)
    (g r : String) :
    (∃ out, process_final_rule env words g r = .ok (out, true))
    ∧ (truthy env.retainDir = true →
        env.isDir (env.retainDir.getD "") = false →
        retain_audio env words g r = .ok .warnedNotDir) := by
  constructor
  · obtain ⟨out, hout⟩ := retain_audio_total env words g r
    exact ⟨out, by simp [process_final_rule, hout]⟩
  · intro h1 h2
    unfold retain_audio
    simp [h1, h2]

/-- A retain environment whose configured directory does not exist and
whose wave capture raises. -/
def envRetainMissing : RetainEnv :=
  ⟨some "/bad", fun _ => false, .error "getWave failed", true, true⟩

/-- Witness for C6 on a missing retain directory and a raising wave
capture: only the warning outcome, and recognition still dispatches. -/
theorem C6_witness :
    truthy envRetainMissing.retainDir = true
    ∧ envRetainMissing.isDir (envRetainMissing.retainDir.getD "") = false
    ∧ retain_audio envRetainMissing ["a"] "g" "r" = .ok .warnedNotDir
    ∧ (∃ out,
        process_final_rule envRetainMissing ["a"] "g" "r" = .ok (out, true)) :=
  ⟨rfl, rfl,
   (C6_retention_never_raises envRetainMissing ["a"] "g" "r").2 rfl rfl,
   (C6_retention_never_raises envRetainMissing ["a"] "g" "r").1⟩

/-- C10: with a valid retain directory, a recognition whose wave data is
empty makes `_retain_audio` write no `.wav` file and append no log
record, silently: the outcome is `completed []`, not a warning and not a
logged exception. -/
theorem C10_empty_audio_silent (env : RetainEnv) (words : List String)
    (g r : String) (h1 : truthy env.retainDir = true)
    (h2 : env.isDir (env.retainDir.getD "") = true)
    (h3 : env.getWave = .ok []) :
    retain_audio env words g r = .ok (.completed []) := by
  unfold retain_audio retainBody
  simp [h1, h2, h3]

/-- A retain environment with an existing directory and empty wave data. -/
def envRetainEmpty : RetainEnv :=
  ⟨some "/ok", fun _ => true, .ok [], false, false⟩

/-- Witness for C10 on an existing directory and empty audio. -/
theorem C10_witness :
    truthy envRetainEmpty.retainDir = true
    ∧ envRetainEmpty.isDir (envRetainEmpty.retainDir.getD "") = true
    ∧ envRetainEmpty.getWave = .ok []
    ∧ retain_audio envRetainEmpty ["a"] "g" "r" = .ok (.completed []) :=
  ⟨rfl, rfl, rfl,
   C10_empty_audio_silent envRetainEmpty ["a"] "g" "r" rfl rfl rfl⟩

end Dragonfly
